import Mathlib

/-!
Shallow embedding of `OmahaResponseHandlerAction`
(src/omaha_response_handler_action.cc): the decision stage that turns an
Omaha update-check response into an install plan (or a benign/error abort).

Collaborator code that is not part of the visible source
(`ScopedActionCompleter` defaults, `DeltaPerformer::CanResumeUpdate`,
`DeltaPerformer::ResetUpdateProgress`, `utils::GetInstallDev`,
`utils::KernelDeviceOfBootDevice`, `utils::WriteFile`, the prefs store) is
modelled from the specification, as marked on each definition.
-/

namespace UpdateEngine

/-- The Omaha update-check response: the fields of `OmahaResponse` read by
the handler, translated from the source. `deadline` is an opaque byte
sequence, kept as a `String` (the source stores it as `std::string` and
writes `data()`/`size()` verbatim). -/
structure OmahaResponse where
  update_exists : Bool
  version : String
  size : Nat
  hash : String
  metadata_size : Nat
  metadata_signature : String
  public_key_rsa : String
  payload_urls : List String
  is_delta_payload : Bool
  deadline : String
deriving DecidableEq, Repr, Inhabited

/-- The install plan: the fields of `InstallPlan` assigned by
`PerformAction`, translated from the source. -/
structure InstallPlan where
  download_url : String
  version : String
  payload_size : Nat
  payload_hash : String
  metadata_size : Nat
  metadata_signature : String
  public_key_rsa : String
  hash_checks_mandatory : Bool
  is_resume : Bool
  is_full_update : Bool
  install_path : String
  kernel_install_path : String
  powerwash_required : Bool
deriving DecidableEq, Repr, Inhabited

/-- Modelled from the spec: the small persisted-progress store
(`PrefsInterface`, not under src/). It holds the in-flight update-check
response hash (`kPrefsUpdateCheckResponseHash`) and opaque stored progress
counters (`none` once reset). -/
structure ProgressStore where
  response_hash : Option String
  progress : Option Nat
deriving DecidableEq, Repr, Inhabited

/-- Modelled from the spec: the outcome taxonomy of one activation.
`ResponseInvalid` is the explicit `kErrorCodeOmahaResponseInvalid` set in
the source; `Success` is the explicit `kErrorCodeSuccess`; `NoUpdate` and
`RollbackAvoided` are the benign aborts the spec assigns a neutral
(non-error) completion status; `DefaultError` is the completion code the
completer (not under src/) reports when the action returns early without
setting a code (the device-resolution failure and the missing
output-pipe early returns). -/
inductive Outcome where
  | NoUpdate
  | RollbackAvoided
  | ResponseInvalid
  | DefaultError
  | Success
deriving DecidableEq, Repr

/-- Modelled from the spec: which outcomes are error statuses. The benign
aborts (`NoUpdate`, `RollbackAvoided`) and `Success` are neutral;
`ResponseInvalid` and the default error are error statuses. -/
def Outcome.isError : Outcome → Bool
  | .NoUpdate => false
  | .RollbackAvoided => false
  | .ResponseInvalid => true
  | .DefaultError => true
  | .Success => false

/-- The environment one activation reads: external stores, platform
queries and pipeline facts. Collaborator operations that can fail are
given explicit success flags; collaborator queries are explicit
functions. -/
structure Environment where
  rollback_version : String
  current_url : String
  use_p2p_for_downloading : Bool
  p2p_url : String
  is_official_build : Bool
  boot_device_override : String
  hardware_boot_device : String
  install_dev : String → Option String
  kernel_device_of_boot_device : String → String
  to_more_stable_channel : Bool
  is_powerwash_allowed : Bool
  store : ProgressStore
  reset_progress_ok : Bool
  set_hash_ok : Bool
  has_output_pipe : Bool
  deadline_write_ok : Bool
  sink_prior : String

/-- The observable result of one activation: the completion outcome, the
plan handed downstream (if any), and the side effects on the environment
(flag writes, progress markers, final store state, final deadline-sink
content). `p2p_flag_write = none` means `SetUsingP2PForDownloading` was
never called. -/
structure DecisionResult where
  outcome : Outcome
  plan : Option InstallPlan
  got_no_update_response : Bool
  p2p_flag_write : Option Bool
  update_resumed_called : Bool
  update_restarted_called : Bool
  reset_progress_called : Bool
  persist_hash_called : Bool
  store : ProgressStore
  sink : String
deriving DecidableEq, Repr

/-- `base::StartsWithASCII(str, search, false)`: case-insensitive ASCII
prefix test, as used by `AreHashChecksMandatory` with search
`"https://"`. Translated from the library semantics: both sides are
ASCII-lowercased and compared as prefixes. -/
def startsWithASCIIInsensitive (s search : String) : Bool :=
  List.isPrefixOf (search.data.map Char.toLower) (s.data.map Char.toLower)

/-- `OmahaResponseHandlerAction::AreHashChecksMandatory`, translated from
the source. It reads the official-build flag, the response public key,
the already-resolved `install_plan_.download_url` and the response
`payload_urls`. -/
def AreHashChecksMandatory (is_official_build : Bool)
    (public_key_rsa download_url : String)
    (payload_urls : List String) : Bool :=
  if !is_official_build then
    if !public_key_rsa.isEmpty then true else false
  else if !startsWithASCIIInsensitive download_url "https://" then true
  else if payload_urls.any (fun u => !startsWithASCIIInsensitive u "https://") then
    true
  else false

/-- Modelled from the spec: `DeltaPerformer::CanResumeUpdate` (not under
src/) — the resume predicate over the stored hash and the response hash:
stored hash equal to the response hash means resume; different or absent
means no resume. -/
def CanResumeUpdate (store : ProgressStore) (hash : String) : Bool :=
  store.response_hash == some hash

/-- Modelled from the spec: `DeltaPerformer::ResetUpdateProgress` (not
under src/) — reset any stored progress counters; on failure the store is
unchanged (the caller only logs). -/
def ResetUpdateProgress (store : ProgressStore) (ok : Bool) : ProgressStore :=
  if ok then { store with progress := none } else store

/-- Modelled from the spec: `PrefsInterface::SetString` on
`kPrefsUpdateCheckResponseHash` (not under src/) — persist the hash as the
new in-flight response hash; on failure the store is unchanged (the
caller only logs). -/
def SetResponseHash (store : ProgressStore) (hash : String) (ok : Bool) :
    ProgressStore :=
  if ok then { store with response_hash := some hash } else store

/-- The boot device the source passes to `utils::GetInstallDev`: the
explicit override `boot_device_` when non-empty, else the hardware
query. -/
def bootDevice (e : Environment) : String :=
  if e.boot_device_override.isEmpty then e.hardware_boot_device
  else e.boot_device_override

/-- The resolved download URL: the current URL, overridden by the peer
(p2p) URL when peer-assist is enabled and the peer URL is non-empty
(translated from the source's p2p substitution). -/
def resolvedDownloadUrl (e : Environment) : String :=
  if e.use_p2p_for_downloading && !e.p2p_url.isEmpty then e.p2p_url
  else e.current_url

/-- The progress store after the resumability bookkeeping: unchanged on
resume; on restart, progress is reset then the response hash persisted,
each step effective only when its write succeeds (translated from the
source's else-branch ordering). -/
def storeAfterResumability (store : ProgressStore) (is_resume : Bool)
    (hash : String) (reset_ok set_ok : Bool) : ProgressStore :=
  if is_resume then store
  else SetResponseHash (ResetUpdateProgress store reset_ok) hash set_ok

/-- `OmahaResponseHandlerAction::PerformAction`, translated from the
source as a function from the response and the environment to the
observable result. Early returns become early results; the completer
code of a return site that sets no code is the spec-modelled
outcome taxonomy (see `Outcome`). -/
def PerformAction (r : OmahaResponse) (e : Environment) : DecisionResult :=
  let base : DecisionResult :=
    { outcome := Outcome.DefaultError
      plan := none
      got_no_update_response := false
      p2p_flag_write := none
      update_resumed_called := false
      update_restarted_called := false
      reset_progress_called := false
      persist_hash_called := false
      store := e.store
      sink := e.sink_prior }
  if !r.update_exists then
    { base with got_no_update_response := true, outcome := Outcome.NoUpdate }
  else if !e.rollback_version.isEmpty && e.rollback_version == r.version then
    { base with outcome := Outcome.RollbackAvoided }
  else if e.current_url.isEmpty then
    { base with outcome := Outcome.ResponseInvalid }
  else
    let p2p : Bool := e.use_p2p_for_downloading && !e.p2p_url.isEmpty
    let download_url : String := resolvedDownloadUrl e
    let p2p_write : Option Bool := if p2p then some true else none
    let is_resume : Bool := CanResumeUpdate e.store r.hash
    let store1 : ProgressStore :=
      storeAfterResumability e.store is_resume r.hash e.reset_progress_ok
        e.set_hash_ok
    let effects : DecisionResult :=
      { base with
          p2p_flag_write := p2p_write
          update_resumed_called := is_resume
          update_restarted_called := !is_resume
          reset_progress_called := !is_resume
          persist_hash_called := !is_resume
          store := store1 }
    match e.install_dev (bootDevice e) with
    | none => effects
    | some install_path =>
      let plan : InstallPlan :=
        { download_url := download_url
          version := r.version
          payload_size := r.size
          payload_hash := r.hash
          metadata_size := r.metadata_size
          metadata_signature := r.metadata_signature
          public_key_rsa := r.public_key_rsa
          hash_checks_mandatory :=
            AreHashChecksMandatory e.is_official_build r.public_key_rsa
              download_url r.payload_urls
          is_resume := is_resume
          is_full_update := !r.is_delta_payload
          install_path := install_path
          kernel_install_path := e.kernel_device_of_boot_device install_path
          powerwash_required :=
            e.to_more_stable_channel && e.is_powerwash_allowed }
      if !e.has_output_pipe then effects
      else
        { effects with
            outcome := Outcome.Success
            plan := some plan
            sink := if e.deadline_write_ok then r.deadline else e.sink_prior }

end UpdateEngine

namespace UpdateEngine

/-- A concrete response: the worked example of the spec. -/
def resp0 : OmahaResponse :=
  { update_exists := true
    version := "1.2.3"
    size := 1000
    hash := "abc"
    metadata_size := 11
    metadata_signature := "sig"
    public_key_rsa := ""
    payload_urls := ["https://a"]
    is_delta_payload := true
    deadline := "D1" }

/-- A concrete environment matching the spec's worked example: no stored
rollback, current URL set, peer-assist off, official build, device
resolution succeeding, all writes succeeding, output pipe present. -/
def env0 : Environment :=
  { rollback_version := ""
    current_url := "https://a"
    use_p2p_for_downloading := false
    p2p_url := ""
    is_official_build := true
    boot_device_override := ""
    hardware_boot_device := "/dev/sda"
    install_dev := fun _ => some "/dev/sda3"
    kernel_device_of_boot_device := fun _ => "/dev/sda2"
    to_more_stable_channel := false
    is_powerwash_allowed := false
    store := { response_hash := none, progress := some 5 }
    reset_progress_ok := true
    set_hash_ok := true
    has_output_pipe := true
    deadline_write_ok := true
    sink_prior := "" }

/-- A concrete environment with peer-assist enabled and a non-empty,
non-HTTPS peer URL. -/
def envP2P : Environment :=
  { env0 with use_p2p_for_downloading := true, p2p_url := "http://peer" }

/-- Follows the spec's words (the HashPolicy truth table of C1), stated as
a second definition for comparison with the source's
`AreHashChecksMandatory`: unofficial build — mandatory iff a public key
was supplied; official build — mandatory iff the resolved URL does not
start with the secure scheme "https://" or some entry of the payload URLs
does not; URL schemes compare case-insensitively (ASCII). -/
def hashPolicySpec (officialBuild hasPublicKey : Bool)
    (resolvedUrl : String) (payloadUrls : List String) : Bool :=
  if officialBuild then
    !startsWithASCIIInsensitive resolvedUrl "https://"
      || payloadUrls.any (fun u => !startsWithASCIIInsensitive u "https://")
  else hasPublicKey

end UpdateEngine

namespace UpdateEngine

/-- C4: a response with no update produces no plan, completes with the
benign `NoUpdate` outcome, a neutral (non-error) status, and records the
no-update flag. -/
theorem no_update_benign (r : OmahaResponse) (e : Environment)
    (h : r.update_exists = false) :
    (PerformAction r e).plan = none ∧
    (PerformAction r e).outcome = Outcome.NoUpdate ∧
    (PerformAction r e).outcome.isError = false ∧
    (PerformAction r e).got_no_update_response = true := by
  simp [PerformAction, h, Outcome.isError]

theorem no_update_benign_witness :
    (PerformAction { resp0 with update_exists := false } env0).plan = none ∧
    (PerformAction { resp0 with update_exists := false } env0).outcome =
      Outcome.NoUpdate ∧
    (PerformAction { resp0 with update_exists := false } env0).outcome.isError
      = false ∧
    (PerformAction { resp0 with update_exists := false } env0).got_no_update_response
      = true :=
  no_update_benign { resp0 with update_exists := false } env0 (by decide)

end UpdateEngine

namespace UpdateEngine

/-- C5: a non-empty stored rollback version equal to the response version
aborts with the benign `RollbackAvoided` outcome and no plan; an empty or
different stored rollback version proceeds past the check (the outcome is
never `RollbackAvoided`). -/
theorem rollback_policy (r : OmahaResponse) (e : Environment)
    (hu : r.update_exists = true) :
    ((e.rollback_version.isEmpty = false ∧ e.rollback_version = r.version) →
      (PerformAction r e).outcome = Outcome.RollbackAvoided ∧
      (PerformAction r e).plan = none ∧
      (PerformAction r e).outcome.isError = false) ∧
    ((e.rollback_version.isEmpty = true ∨ e.rollback_version ≠ r.version) →
      (PerformAction r e).outcome ≠ Outcome.RollbackAvoided) := by
  constructor
  · rintro ⟨h1, h2⟩
    have h1' : r.version.isEmpty = false := h2 ▸ h1
    simp [PerformAction, hu, h1, h2, h1', Outcome.isError]
  · intro hor
    have hcond : (!e.rollback_version.isEmpty && e.rollback_version == r.version)
        = false := by
      rcases hor with h1 | h2
      · simp [h1]
      · cases hbe : e.rollback_version == r.version with
        | false => simp [hbe]
        | true => exact absurd (eq_of_beq hbe) h2
    cases hcu : e.current_url.isEmpty <;>
      cases hd : e.install_dev (bootDevice e) <;>
        cases hp : e.has_output_pipe <;>
          simp [PerformAction, hu, hcond, hcu, hd, hp]

theorem rollback_policy_witness :
    ((({ env0 with rollback_version := "1.2.3" } :
        Environment).rollback_version.isEmpty = false ∧
      ({ env0 with rollback_version := "1.2.3" } :
        Environment).rollback_version = resp0.version) →
      (PerformAction resp0 { env0 with rollback_version := "1.2.3" }).outcome =
        Outcome.RollbackAvoided ∧
      (PerformAction resp0 { env0 with rollback_version := "1.2.3" }).plan =
        none ∧
      (PerformAction resp0
        { env0 with rollback_version := "1.2.3" }).outcome.isError = false) ∧
    ((({ env0 with rollback_version := "1.2.3" } :
        Environment).rollback_version.isEmpty = true ∨
      ({ env0 with rollback_version := "1.2.3" } :
        Environment).rollback_version ≠ resp0.version) →
      (PerformAction resp0 { env0 with rollback_version := "1.2.3" }).outcome ≠
        Outcome.RollbackAvoided) :=
  rollback_policy resp0 { env0 with rollback_version := "1.2.3" } (by decide)

/-- C6: with an update, no rollback abort, and an empty current URL, the
outcome is the `ResponseInvalid` error status, no plan is produced, and
this status is an error distinct from the default-error class reported by
the device-resolution failure. -/
theorem empty_url_response_invalid (r : OmahaResponse) (e : Environment)
    (hu : r.update_exists = true)
    (hrb : (!e.rollback_version.isEmpty && e.rollback_version == r.version)
      = false)
    (hurl : e.current_url.isEmpty = true) :
    (PerformAction r e).outcome = Outcome.ResponseInvalid ∧
    (PerformAction r e).plan = none ∧
    (PerformAction r e).outcome.isError = true ∧
    (PerformAction r e).outcome ≠ Outcome.DefaultError := by
  simp [PerformAction, hu, hrb, hurl, Outcome.isError]

theorem empty_url_response_invalid_witness :
    (PerformAction resp0 { env0 with current_url := "" }).outcome =
      Outcome.ResponseInvalid ∧
    (PerformAction resp0 { env0 with current_url := "" }).plan = none ∧
    (PerformAction resp0 { env0 with current_url := "" }).outcome.isError
      = true ∧
    (PerformAction resp0 { env0 with current_url := "" }).outcome ≠
      Outcome.DefaultError :=
  empty_url_response_invalid resp0 { env0 with current_url := "" }
    (by decide) (by decide) (by decide)

end UpdateEngine

namespace UpdateEngine

/-- C9: error completion is not atomic with the progress store — on the
restart path (no resume), when the subsequent device resolution fails, the
already-performed environment writes stand: the progress counters stay
reset and the response hash stays persisted, while the activation ends
with the default error and no plan. -/
theorem error_not_atomic_with_store (r : OmahaResponse) (e : Environment)
    (hu : r.update_exists = true)
    (hrb : (!e.rollback_version.isEmpty && e.rollback_version == r.version)
      = false)
    (hurl : e.current_url.isEmpty = false)
    (hres : CanResumeUpdate e.store r.hash = false)
    (hreset : e.reset_progress_ok = true)
    (hset : e.set_hash_ok = true)
    (hdev : e.install_dev (bootDevice e) = none) :
    (PerformAction r e).outcome = Outcome.DefaultError ∧
    (PerformAction r e).plan = none ∧
    (PerformAction r e).store.progress = none ∧
    (PerformAction r e).store.response_hash = some r.hash ∧
    (PerformAction r e).update_restarted_called = true ∧
    (PerformAction r e).reset_progress_called = true ∧
    (PerformAction r e).persist_hash_called = true := by
  simp [PerformAction, storeAfterResumability, ResetUpdateProgress,
    SetResponseHash, hu, hrb, hurl, hres, hreset, hset, hdev]

theorem error_not_atomic_with_store_witness :
    (PerformAction resp0
      { env0 with install_dev := fun _ => none }).outcome =
        Outcome.DefaultError ∧
    (PerformAction resp0 { env0 with install_dev := fun _ => none }).plan
      = none ∧
    (PerformAction resp0
      { env0 with install_dev := fun _ => none }).store.progress = none ∧
    (PerformAction resp0
      { env0 with install_dev := fun _ => none }).store.response_hash =
        some resp0.hash ∧
    (PerformAction resp0
      { env0 with install_dev := fun _ => none }).update_restarted_called
        = true ∧
    (PerformAction resp0
      { env0 with install_dev := fun _ => none }).reset_progress_called
        = true ∧
    (PerformAction resp0
      { env0 with install_dev := fun _ => none }).persist_hash_called
        = true :=
  error_not_atomic_with_store resp0 { env0 with install_dev := fun _ => none }
    (by decide) (by decide) (by decide) (by decide) (by decide) (by decide)
    rfl

/-- C2 counterexample: an activation that passes the abort checks, URL
resolution and device resolution, but has no downstream sink, does not
complete with `Success` — the source returns early on a missing output
pipe (TEST_AND_RETURN(HasOutputPipe())) before setting the success
code. -/
theorem success_without_sink_counterexample :
    resp0.update_exists = true ∧
    ({ env0 with has_output_pipe := false } : Environment).current_url.isEmpty
      = false ∧
    (({ env0 with has_output_pipe := false } : Environment).install_dev
      (bootDevice { env0 with has_output_pipe := false })).isSome = true ∧
    (PerformAction resp0 { env0 with has_output_pipe := false }).outcome ≠
      Outcome.Success ∧
    (PerformAction resp0 { env0 with has_output_pipe := false }).plan = none :=
  ⟨by decide, by decide, rfl, by decide, by decide⟩

/-- C2 amended: for every activation passing the abort checks, URL
resolution and device resolution, the outcome is `Success` when a
downstream sink exists (the auxiliary deadline write's success or failure
does not change it); with no sink the action returns early with the
default error and produces no plan. -/
theorem outcome_with_and_without_sink (r : OmahaResponse) (e : Environment)
    (hu : r.update_exists = true)
    (hrb : (!e.rollback_version.isEmpty && e.rollback_version == r.version)
      = false)
    (hurl : e.current_url.isEmpty = false)
    (hdev : (e.install_dev (bootDevice e)).isSome = true) :
    (e.has_output_pipe = true →
      (PerformAction r e).outcome = Outcome.Success) ∧
    (e.has_output_pipe = false →
      (PerformAction r e).outcome = Outcome.DefaultError ∧
      (PerformAction r e).plan = none) := by
  cases hd : e.install_dev (bootDevice e) with
  | none => rw [hd] at hdev; exact absurd hdev (by simp)
  | some install_path =>
    constructor
    · intro hp
      simp [PerformAction, hu, hrb, hurl, hd, hp]
    · intro hp
      simp [PerformAction, hu, hrb, hurl, hd, hp]

theorem outcome_with_and_without_sink_witness :
    (env0.has_output_pipe = true →
      (PerformAction resp0 env0).outcome = Outcome.Success) ∧
    (env0.has_output_pipe = false →
      (PerformAction resp0 env0).outcome = Outcome.DefaultError ∧
      (PerformAction resp0 env0).plan = none) :=
  outcome_with_and_without_sink resp0 env0 (by decide) (by decide) (by decide)
    rfl

/-- C8 counterexample: when the auxiliary deadline write fails, the
activation still completes with `Success` but the sink does not contain
the response's deadline bytes — so the sink does not contain them after
every `Success` outcome. -/
theorem deadline_sink_counterexample :
    (PerformAction resp0 { env0 with deadline_write_ok := false }).outcome =
      Outcome.Success ∧
    (PerformAction resp0 { env0 with deadline_write_ok := false }).sink ≠
      resp0.deadline := by
  constructor
  · decide
  · decide

/-- C8 amended: after a `Success` outcome, if the auxiliary write
succeeded the sink contains exactly the bytes of `response.deadline`
(an empty deadline giving a zero-length write); if the best-effort write
failed the outcome is still `Success` and the sink keeps its prior
content. -/
theorem deadline_sink_after_success (r : OmahaResponse) (e : Environment)
    (h : (PerformAction r e).outcome = Outcome.Success) :
    (e.deadline_write_ok = true → (PerformAction r e).sink = r.deadline) ∧
    (e.deadline_write_ok = false → (PerformAction r e).sink = e.sink_prior)
    := by
  cases hu : r.update_exists <;>
    cases hrb : (!e.rollback_version.isEmpty &&
      e.rollback_version == r.version) <;>
      cases hurl : e.current_url.isEmpty <;>
        cases hd : e.install_dev (bootDevice e) <;>
          cases hp : e.has_output_pipe <;>
            cases hw : e.deadline_write_ok <;>
              simp [PerformAction, hu, hrb, hurl, hd, hp, hw] at h ⊢

theorem deadline_sink_after_success_witness :
    (env0.deadline_write_ok = true →
      (PerformAction resp0 env0).sink = resp0.deadline) ∧
    (env0.deadline_write_ok = false →
      (PerformAction resp0 env0).sink = env0.sink_prior) :=
  deadline_sink_after_success resp0 env0 (by decide)

end UpdateEngine

namespace UpdateEngine

/-- `SetResponseHash` never touches the progress counters. -/
lemma SetResponseHash_progress (s : ProgressStore) (h : String) (ok : Bool) :
    (SetResponseHash s h ok).progress = s.progress := by
  cases ok <;> simp [SetResponseHash]

/-- On the all-checks-pass path with an output pipe, the activation
completes with `Success`. -/
lemma outcome_success_aux (r : OmahaResponse) (e : Environment)
    (hu : r.update_exists = true)
    (hrb : (!e.rollback_version.isEmpty && e.rollback_version == r.version)
      = false)
    (hurl : e.current_url.isEmpty = false)
    (ip : String) (hd : e.install_dev (bootDevice e) = some ip)
    (hp : e.has_output_pipe = true) :
    (PerformAction r e).outcome = Outcome.Success := by
  simp [PerformAction, hu, hrb, hurl, hd, hp]

/-- Characterization of a produced plan: the conditions that were passed on
the way, the fields of the plan, and the side effects of the
activation. -/
lemma plan_some_spec (r : OmahaResponse) (e : Environment) (p : InstallPlan)
    (h : (PerformAction r e).plan = some p) :
    r.update_exists = true
  ∧ (!e.rollback_version.isEmpty && e.rollback_version == r.version) = false
  ∧ e.current_url.isEmpty = false
  ∧ e.install_dev (bootDevice e) = some p.install_path
  ∧ e.has_output_pipe = true
  ∧ (PerformAction r e).outcome = Outcome.Success
  ∧ p.download_url = resolvedDownloadUrl e
  ∧ p.hash_checks_mandatory =
      AreHashChecksMandatory e.is_official_build r.public_key_rsa
        (resolvedDownloadUrl e) r.payload_urls
  ∧ p.is_resume = CanResumeUpdate e.store r.hash
  ∧ (PerformAction r e).update_resumed_called = CanResumeUpdate e.store r.hash
  ∧ (PerformAction r e).update_restarted_called
      = !CanResumeUpdate e.store r.hash
  ∧ (PerformAction r e).reset_progress_called
      = !CanResumeUpdate e.store r.hash
  ∧ (PerformAction r e).persist_hash_called = !CanResumeUpdate e.store r.hash
  ∧ (PerformAction r e).store =
      storeAfterResumability e.store (CanResumeUpdate e.store r.hash) r.hash
        e.reset_progress_ok e.set_hash_ok
  ∧ ((e.use_p2p_for_downloading && !e.p2p_url.isEmpty) = true →
      (PerformAction r e).p2p_flag_write = some true) := by
  cases hu : r.update_exists <;>
    cases hrb : (!e.rollback_version.isEmpty &&
      e.rollback_version == r.version) <;>
      cases hurl : e.current_url.isEmpty <;>
        cases hd : e.install_dev (bootDevice e) <;>
          cases hp : e.has_output_pipe <;>
            simp [PerformAction, hu, hrb, hurl, hd, hp] at h
  subst h
  refine ⟨rfl, rfl, rfl, ?_, rfl, ?_, ?_, ?_, ?_, ?_, ?_, ?_, ?_, ?_, ?_⟩ <;>
    simp [PerformAction, hu, hrb, hurl, hd, hp]

end UpdateEngine

namespace UpdateEngine

/-- The source's hash-check policy agrees with the spec's truth table. -/
lemma AreHashChecksMandatory_eq_policy (o : Bool) (k u : String)
    (us : List String) :
    AreHashChecksMandatory o k u us = hashPolicySpec o (!k.isEmpty) u us := by
  cases o with
  | false =>
    cases hk : k.isEmpty <;>
      simp [AreHashChecksMandatory, hashPolicySpec, hk]
  | true =>
    cases hsu : startsWithASCIIInsensitive u "https://" <;>
      cases hany : us.any (fun x => !startsWithASCIIInsensitive x "https://") <;>
        simp [AreHashChecksMandatory, hashPolicySpec, hsu, hany]

/-- C1: every produced plan's `hash_checks_mandatory` follows the
HashPolicy truth table: for an unofficial build it equals whether
`response.public_key_rsa` is non-empty; for an official build it is true
iff the resolved download URL (after any peer-assist substitution) or
some entry of `response.payload_urls` does not start with the secure
scheme "https://", and false when all of them are secure. -/
theorem hash_checks_follow_policy_table (r : OmahaResponse) (e : Environment)
    (p : InstallPlan) (h : (PerformAction r e).plan = some p) :
    p.hash_checks_mandatory =
      hashPolicySpec e.is_official_build (!r.public_key_rsa.isEmpty)
        (resolvedDownloadUrl e) r.payload_urls := by
  have hspec := plan_some_spec r e p h
  exact hspec.2.2.2.2.2.2.2.1.trans
    (AreHashChecksMandatory_eq_policy e.is_official_build r.public_key_rsa
      (resolvedDownloadUrl e) r.payload_urls)

theorem hash_checks_follow_policy_table_witness :
    ((PerformAction resp0 env0).plan.getD default).hash_checks_mandatory =
      hashPolicySpec env0.is_official_build (!resp0.public_key_rsa.isEmpty)
        (resolvedDownloadUrl env0) resp0.payload_urls :=
  hash_checks_follow_policy_table resp0 env0
    ((PerformAction resp0 env0).plan.getD default) (by rfl)

/-- C7: when peer-assist is enabled and the peer URL is non-empty, every
produced plan's `download_url` is the peer URL — regardless of the
payload URLs or the current URL — and the peer-assist-in-use flag is
written true during the decision. -/
theorem p2p_url_overrides_download_url (r : OmahaResponse) (e : Environment)
    (p : InstallPlan)
    (hp2p : e.use_p2p_for_downloading = true)
    (hpu : e.p2p_url.isEmpty = false)
    (h : (PerformAction r e).plan = some p) :
    p.download_url = e.p2p_url ∧
    (PerformAction r e).p2p_flag_write = some true := by
  have hspec := plan_some_spec r e p h
  have hdl : p.download_url = resolvedDownloadUrl e :=
    hspec.2.2.2.2.2.2.1
  have hflag := hspec.2.2.2.2.2.2.2.2.2.2.2.2.2.2
  constructor
  · rw [hdl, resolvedDownloadUrl]
    simp [hp2p, hpu]
  · exact hflag (by simp [hp2p, hpu])

theorem p2p_url_overrides_download_url_witness :
    ((PerformAction resp0 envP2P).plan.getD default).download_url =
      envP2P.p2p_url ∧
    (PerformAction resp0 envP2P).p2p_flag_write = some true :=
  p2p_url_overrides_download_url resp0 envP2P _ (by decide) (by decide)
    (by rfl)

end UpdateEngine

namespace UpdateEngine

/-- C3: whenever a plan is produced, `is_resume` equals the resume
predicate over the stored progress and `response.hash`; on resume the
resumed marker is invoked and the store is untouched (no progress reset);
on restart the restarted marker is invoked, the reset and the hash
persistence are invoked (taking effect when their writes succeed, the
progress counters becoming reset and `response.hash` the new in-flight
hash), and failures of the reset or the persistence do not change the
completion outcome. -/
theorem resumability_bookkeeping (r : OmahaResponse) (e : Environment)
    (p : InstallPlan) (h : (PerformAction r e).plan = some p) :
    p.is_resume = CanResumeUpdate e.store r.hash
  ∧ (PerformAction r e).update_resumed_called = CanResumeUpdate e.store r.hash
  ∧ (PerformAction r e).update_restarted_called
      = !CanResumeUpdate e.store r.hash
  ∧ (PerformAction r e).reset_progress_called
      = !CanResumeUpdate e.store r.hash
  ∧ (PerformAction r e).persist_hash_called = !CanResumeUpdate e.store r.hash
  ∧ (CanResumeUpdate e.store r.hash = true →
      (PerformAction r e).store = e.store)
  ∧ (CanResumeUpdate e.store r.hash = false → e.reset_progress_ok = true →
      (PerformAction r e).store.progress = none)
  ∧ (CanResumeUpdate e.store r.hash = false → e.set_hash_ok = true →
      (PerformAction r e).store.response_hash = some r.hash)
  ∧ (∀ b1 b2 : Bool,
      (PerformAction r
        { e with reset_progress_ok := b1, set_hash_ok := b2 }).outcome
        = (PerformAction r e).outcome) := by
  obtain ⟨hu, hrb, hurl, hd, hp, hout, -, -, hres, hresm, hrest, hresetc,
    hpers, hstore, -⟩ := plan_some_spec r e p h
  refine ⟨hres, hresm, hrest, hresetc, hpers, ?_, ?_, ?_, ?_⟩
  · intro hcr
    rw [hstore, storeAfterResumability, hcr]
    simp
  · intro hcr hok
    rw [hstore, storeAfterResumability, hcr]
    simp [SetResponseHash_progress, ResetUpdateProgress, hok]
  · intro hcr hok
    rw [hstore, storeAfterResumability, hcr]
    simp [SetResponseHash, hok]
  · intro b1 b2
    rw [hout]
    exact outcome_success_aux r
      { e with reset_progress_ok := b1, set_hash_ok := b2 }
      hu hrb hurl p.install_path hd hp

theorem resumability_bookkeeping_witness :
    ((PerformAction resp0 env0).plan.getD default).is_resume =
      CanResumeUpdate env0.store resp0.hash
  ∧ (CanResumeUpdate env0.store resp0.hash = false →
      env0.set_hash_ok = true →
      (PerformAction resp0 env0).store.response_hash = some resp0.hash)
  ∧ (PerformAction resp0
      { env0 with reset_progress_ok := false, set_hash_ok := false }).outcome
      = (PerformAction resp0 env0).outcome :=
  ⟨(resumability_bookkeeping resp0 env0 _ (by rfl)).1,
   (resumability_bookkeeping resp0 env0 _ (by rfl)).2.2.2.2.2.2.2.1,
   (resumability_bookkeeping resp0 env0 _ (by rfl)).2.2.2.2.2.2.2.2
     false false⟩

/-- C10: the peer-assist-in-use flag is never written false: in every
activation it is either not written at all, or written true — and a true
write happens only when peer-assist is enabled and the peer URL is
non-empty. -/
theorem p2p_flag_never_cleared (r : OmahaResponse) (e : Environment) :
    (PerformAction r e).p2p_flag_write ≠ some false ∧
    ((PerformAction r e).p2p_flag_write = none ∨
      ((PerformAction r e).p2p_flag_write = some true ∧
        (e.use_p2p_for_downloading && !e.p2p_url.isEmpty) = true)) := by
  cases hu : r.update_exists <;>
    cases hrb : (!e.rollback_version.isEmpty &&
      e.rollback_version == r.version) <;>
      cases hurl : e.current_url.isEmpty <;>
        cases hd : e.install_dev (bootDevice e) <;>
          cases hp : e.has_output_pipe <;>
            cases hpp : (e.use_p2p_for_downloading && !e.p2p_url.isEmpty) <;>
              simp [PerformAction, hu, hrb, hurl, hd, hp, hpp]

theorem p2p_flag_never_cleared_witness :
    (PerformAction resp0 env0).p2p_flag_write ≠ some false ∧
    ((PerformAction resp0 env0).p2p_flag_write = none ∨
      ((PerformAction resp0 env0).p2p_flag_write = some true ∧
        (env0.use_p2p_for_downloading && !env0.p2p_url.isEmpty) = true)) :=
  p2p_flag_never_cleared resp0 env0

end UpdateEngine
